import Mathlib

/-!
Verification of the request-parsing, routing and persistence layer of the
`first_app` Rust backend (`src/backend/src/main.rs`).

The embedding works over `List Char` (the type `Str` below): Rust `&str`
values are modelled as their character lists, database outcomes as explicit
`Except Unit` parameters (one per database call of the source), the database
table as an in-memory `List DBUser`, and a Rust `panic!` arising from an
`.unwrap()` on an `Err` as the `none` value of an `Option` result.
-/

/-- Strings are modelled as lists of characters. -/
abbrev Str := List Char

deriving instance DecidableEq for Except

/-- Rust `char::is_whitespace`: the Unicode `White_Space` property.  Used by
`str::split_whitespace` in `get_id`. -/
def rustWs (c : Char) : Bool :=
  c == ' ' || c == '\t' || c == '\n' || c == '\x0b' || c == '\x0c' || c == '\r' ||
  c == '\u0085' || c == '\u00a0' || c == '\u1680' ||
  (decide ('\u2000' ≤ c) && decide (c ≤ '\u200a')) ||
  c == '\u2028' || c == '\u2029' || c == '\u202f' || c == '\u205f' || c == '\u3000'

/-- Rust `request.split("/")`: splits at every `'/'`; adjacent separators and
separators at either end produce empty segments, and a string with no
separator yields the one-element list holding the whole string. -/
def splitSlash : Str → List Str
  | [] => [[]]
  | c :: rest =>
    if c = '/' then [] :: splitSlash rest
    else
      match splitSlash rest with
      | [] => [[c]]
      | t :: ts => (c :: t) :: ts

/-- Helper for `splitWs`: walks the string keeping the (reversed) current
token in `acc`, emitting a token at each whitespace boundary. -/
def splitWsAux : Str → Str → List Str
  | [], [] => []
  | [], acc => [acc.reverse]
  | c :: rest, acc =>
    if rustWs c then
      match acc with
      | [] => splitWsAux rest []
      | _ :: _ => acc.reverse :: splitWsAux rest []
    else splitWsAux rest (c :: acc)

/-- Rust `str::split_whitespace`: the list of maximal runs of
non-whitespace characters, with all whitespace discarded.  `.next()` on the
iterator is `.head?` of this list. -/
def splitWs (s : Str) : List Str :=
  splitWsAux s []

/-- Embedding of `get_id` (src/backend/src/main.rs:178):
`request.split("/").nth(4).unwrap_or_default().split_whitespace().next().unwrap_or_default()`. -/
def get_id (request : Str) : Str :=
  (splitWs ((splitSlash request)[4]?.getD [])).head?.getD []

/-- Rust `request.split("\r\n\r\n")`: splits at every non-overlapping
occurrence of the blank line `CRLF CRLF`, scanning left to right. -/
def splitCrlf2 : Str → List Str
  | '\r' :: '\n' :: '\r' :: '\n' :: rest => [] :: splitCrlf2 rest
  | c :: rest =>
    match splitCrlf2 rest with
    | [] => [[c]]
    | t :: ts => (c :: t) :: ts
  | [] => [[]]

/-- The raw body handed to the JSON decoder by `get_user_request_body`
(src/backend/src/main.rs:197): `request.split("\r\n\r\n").last().unwrap_or_default()`. -/
def bodyRaw (request : Str) : Str :=
  (splitCrlf2 request).getLast?.getD []

/-- Written from the spec for claim C3: the portion of the buffer strictly
following the first blank line (`CRLF CRLF`), or `none` when the buffer has
no blank line. -/
def afterFirstBlankOpt : Str → Option Str
  | '\r' :: '\n' :: '\r' :: '\n' :: rest => some rest
  | _ :: rest => afterFirstBlankOpt rest
  | [] => none

/-- The portion of the buffer strictly following the last blank line
(`CRLF CRLF`), or `none` when the buffer has no blank line.  Used to state
the amended claim C3. -/
def afterLastBlankOpt : Str → Option Str
  | '\r' :: '\n' :: '\r' :: '\n' :: rest => some ((afterLastBlankOpt rest).getD rest)
  | _ :: rest => afterLastBlankOpt rest
  | [] => none

/-- The outcome of the route dispatch in `handle_client`
(src/backend/src/main.rs:130): which match arm the request string selects. -/
inductive Route where
  | options
  | create
  | getOne
  | getAll
  | update
  | delete
  | notFound
deriving DecidableEq

/-- Embedding of the `match &*request` dispatch of `handle_client`
(src/backend/src/main.rs:130): guarded prefix tests in source order. -/
def route (r : Str) : Route :=
  if "OPTIONS".data.isPrefixOf r then .options
  else if "POST /api/rust/users".data.isPrefixOf r then .create
  else if "GET /api/rust/users/".data.isPrefixOf r then .getOne
  else if "GET /api/rust/users".data.isPrefixOf r then .getAll
  else if "PUT /api/rust/users/".data.isPrefixOf r then .update
  else if "DELETE /api/rust/users/".data.isPrefixOf r then .delete
  else .notFound

/-- Written from the spec for claim C9: the token obtained by truncating the
string at its first whitespace character. -/
def truncAtFirstWs (s : Str) : Str :=
  s.takeWhile (fun d => !rustWs d)

/-- Written from the spec for claim C9: the fifth `/`-separated segment
(index 4) truncated at its first whitespace, or the empty string when there
are fewer than five segments. -/
def specIdC9 (r : Str) : Str :=
  if (splitSlash r).length < 5 then []
  else truncAtFirstWs ((splitSlash r)[4]?.getD [])

/-- The `User` model of the source (src/backend/src/main.rs:28): optional
id, name and email. -/
structure User where
  id : Option Int
  name : Str
  email : Str
deriving DecidableEq

/-- A row of the `users` table: the id column is `SERIAL PRIMARY KEY`, so it
is always present on rows read back from the database. -/
structure DBUser where
  id : Int
  name : Str
  email : Str
deriving DecidableEq

/-- JSON values, for modelling the `serde_json` (de)serialization used by
the source.  Numbers with a fraction or exponent are kept abstract as
`floatLit` (their numeric value is never needed: a float is never a valid
`i32` field and non-`User` fields are ignored). -/
inductive Json where
  | null
  | bool (b : Bool)
  | num (n : Int)
  | floatLit
  | str (s : Str)
  | arr (elems : List Json)
  | obj (members : List (Str × Json))

/-- JSON insignificant whitespace (space, tab, line feed, carriage return). -/
def skipWsJ (s : Str) : Str :=
  s.dropWhile (fun c => c == ' ' || c == '\t' || c == '\n' || c == '\r')

/-- Value of a hexadecimal digit. -/
def hexVal? (c : Char) : Option Nat :=
  if '0' ≤ c ∧ c ≤ '9' then some (c.toNat - 48)
  else if 'a' ≤ c ∧ c ≤ 'f' then some (c.toNat - 87)
  else if 'A' ≤ c ∧ c ≤ 'F' then some (c.toNat - 55)
  else none

/-- Parses a JSON string body after its opening quote, handling the escape
sequences; returns the decoded characters and the rest of the input.  Lone
surrogate escapes are rejected (surrogate pairs are not modelled; no input
of this development uses them). -/
def parseJString : Str → Except Unit (Str × Str)
  | [] => .error ()
  | '"' :: rest => .ok ([], rest)
  | '\\' :: '"' :: rest => (parseJString rest).map (fun p => ('"' :: p.1, p.2))
  | '\\' :: '\\' :: rest => (parseJString rest).map (fun p => ('\\' :: p.1, p.2))
  | '\\' :: '/' :: rest => (parseJString rest).map (fun p => ('/' :: p.1, p.2))
  | '\\' :: 'b' :: rest => (parseJString rest).map (fun p => ('\x08' :: p.1, p.2))
  | '\\' :: 'f' :: rest => (parseJString rest).map (fun p => ('\x0c' :: p.1, p.2))
  | '\\' :: 'n' :: rest => (parseJString rest).map (fun p => ('\n' :: p.1, p.2))
  | '\\' :: 'r' :: rest => (parseJString rest).map (fun p => ('\r' :: p.1, p.2))
  | '\\' :: 't' :: rest => (parseJString rest).map (fun p => ('\t' :: p.1, p.2))
  | '\\' :: 'u' :: h1 :: h2 :: h3 :: h4 :: rest =>
    match hexVal? h1, hexVal? h2, hexVal? h3, hexVal? h4 with
    | some a, some b, some c, some d =>
      let v := ((a * 16 + b) * 16 + c) * 16 + d
      if 0xd800 ≤ v ∧ v < 0xe000 then .error ()
      else (parseJString rest).map (fun p => (Char.ofNat v :: p.1, p.2))
    | _, _, _, _ => .error ()
  | '\\' :: _ => .error ()
  | c :: rest =>
    if c.toNat < 32 then .error ()
    else (parseJString rest).map (fun p => (c :: p.1, p.2))

/-- Numeric value of a string of decimal digits. -/
def digitsToNat (ds : Str) : Nat :=
  ds.foldl (fun a c => a * 10 + (c.toNat - 48)) 0

/-- Consumes an exponent tail after `e`/`E`: optional sign, one or more
digits. -/
def expTail (s : Str) : Except Unit Str :=
  let s1 := match s with
    | '+' :: r => r
    | '-' :: r => r
    | _ => s
  if s1.takeWhile Char.isDigit = [] then .error ()
  else .ok (s1.dropWhile Char.isDigit)

/-- Parses a JSON number.  Plain integers that fit the 64-bit ranges
`serde_json` uses become `Json.num`; numbers with a fraction or exponent
(and integers too large for 64 bits, which `serde_json` reads as floats)
become the abstract `Json.floatLit`. -/
def parseNumber (s : Str) : Except Unit (Json × Str) :=
  let neg : Bool := match s with
    | '-' :: _ => true
    | _ => false
  let s1 : Str := match s with
    | '-' :: r => r
    | _ => s
  let ds := s1.takeWhile Char.isDigit
  let r1 := s1.dropWhile Char.isDigit
  if ds = [] then .error ()
  else if 2 ≤ ds.length ∧ ds.head? = some '0' then .error ()
  else
    let intVal : Int := if neg then -(Int.ofNat (digitsToNat ds)) else Int.ofNat (digitsToNat ds)
    let intJson : Json :=
      if neg then
        if -9223372036854775808 ≤ intVal then .num intVal else .floatLit
      else
        if intVal ≤ 18446744073709551615 then .num intVal else .floatLit
    match r1 with
    | '.' :: r2 =>
      if r2.takeWhile Char.isDigit = [] then .error ()
      else
        match r2.dropWhile Char.isDigit with
        | 'e' :: r3 => (expTail r3).map (fun r => (.floatLit, r))
        | 'E' :: r3 => (expTail r3).map (fun r => (.floatLit, r))
        | r3 => .ok (.floatLit, r3)
    | 'e' :: r2 => (expTail r2).map (fun r => (.floatLit, r))
    | 'E' :: r2 => (expTail r2).map (fun r => (.floatLit, r))
    | _ => .ok (intJson, r1)

mutual

/-- Parses one JSON value (after optional leading whitespace), returning the
value and the remaining input.  `fuel` bounds the recursion depth; the
callers pass more fuel than any input could consume. -/
def parseValue : Nat → Str → Except Unit (Json × Str)
  | 0, _ => .error ()
  | fuel+1, s =>
    match skipWsJ s with
    | 'n' :: 'u' :: 'l' :: 'l' :: r => .ok (.null, r)
    | 't' :: 'r' :: 'u' :: 'e' :: r => .ok (.bool true, r)
    | 'f' :: 'a' :: 'l' :: 's' :: 'e' :: r => .ok (.bool false, r)
    | '"' :: r => (parseJString r).map (fun p => (.str p.1, p.2))
    | '[' :: r =>
      match skipWsJ r with
      | ']' :: r2 => .ok (.arr [], r2)
      | r1 => (parseElems fuel r1).map (fun p => (.arr p.1, p.2))
    | '\x7b' :: r =>
      match skipWsJ r with
      | '\x7d' :: r2 => .ok (.obj [], r2)
      | r1 => (parseMembers fuel r1).map (fun p => (.obj p.1, p.2))
    | s1 => parseNumber s1

/-- Parses the comma-separated elements of a non-empty JSON array, up to and
including the closing bracket. -/
def parseElems : Nat → Str → Except Unit (List Json × Str)
  | 0, _ => .error ()
  | fuel+1, s =>
    match parseValue fuel s with
    | .error e => .error e
    | .ok (v, r) =>
      match skipWsJ r with
      | ',' :: r2 =>
        match parseElems fuel r2 with
        | .ok (vs, r3) => .ok (v :: vs, r3)
        | .error e => .error e
      | ']' :: r2 => .ok ([v], r2)
      | _ => .error ()

/-- Parses the comma-separated `"key": value` members of a non-empty JSON
object, up to and including the closing brace. -/
def parseMembers : Nat → Str → Except Unit (List (Str × Json) × Str)
  | 0, _ => .error ()
  | fuel+1, s =>
    match skipWsJ s with
    | '"' :: r =>
      match parseJString r with
      | .error e => .error e
      | .ok (k, r1) =>
        match skipWsJ r1 with
        | ':' :: r2 =>
          match parseValue fuel r2 with
          | .error e => .error e
          | .ok (v, r3) =>
            match skipWsJ r3 with
            | ',' :: r4 =>
              match parseMembers fuel r4 with
              | .ok (ms, r5) => .ok ((k, v) :: ms, r5)
              | .error e => .error e
            | '\x7d' :: r4 => .ok ([(k, v)], r4)
            | _ => .error ()
        | _ => .error ()
    | _ => .error ()

end

/-- Whether an integer fits in Rust's `i32`. -/
def inI32 (n : Int) : Bool :=
  decide (-2147483648 ≤ n) && decide (n ≤ 2147483647)

/-- Deserializes the `id` field of a `User` (`Option<i32>` in the source):
`null` gives `none`, an in-range integer gives `some`, anything else is a
type error. -/
def setIdField (v : Json) : Except Unit (Option Int) :=
  match v with
  | .null => .ok none
  | .num n => if inI32 n then .ok (some n) else .error ()
  | _ => .error ()

/-- Deserializes a required string field of a `User`. -/
def setStrField (v : Json) : Except Unit Str :=
  match v with
  | .str s => .ok s
  | _ => .error ()

/-- The field loop of serde's derived `Deserialize` for `User` on a JSON
object: fields may come in any order, duplicates of a known field are an
error, unknown fields are ignored, `name` and `email` are required, and a
missing `id` defaults to `none`. -/
def goUser : List (Str × Json) → Option (Option Int) → Option Str → Option Str → Except Unit User
  | [], idF, some nm, some em => .ok ⟨idF.getD none, nm, em⟩
  | [], _, _, _ => .error ()
  | (k, v) :: rest, idF, nameF, emailF =>
    match k with
    | ['i', 'd'] =>
      match idF with
      | some _ => .error ()
      | none =>
        match setIdField v with
        | .ok i => goUser rest (some i) nameF emailF
        | .error e => .error e
    | ['n', 'a', 'm', 'e'] =>
      match nameF with
      | some _ => .error ()
      | none =>
        match setStrField v with
        | .ok s => goUser rest idF (some s) emailF
        | .error e => .error e
    | ['e', 'm', 'a', 'i', 'l'] =>
      match emailF with
      | some _ => .error ()
      | none =>
        match setStrField v with
        | .ok s => goUser rest idF nameF (some s)
        | .error e => .error e
    | _ => goUser rest idF nameF emailF

/-- serde's derived `Deserialize` for `User` applied to a parsed JSON value:
a JSON object is visited as a map; a three-element JSON array is visited as
a sequence of the fields in declaration order (serde's seq form); all other
values are type errors. -/
def fromJsonUser : Json → Except Unit User
  | .obj ms => goUser ms none none none
  | .arr [a, b, c] =>
    match setIdField a, setStrField b, setStrField c with
    | .ok i, .ok nm, .ok em => .ok ⟨i, nm, em⟩
    | _, _, _ => .error ()
  | _ => .error ()

/-- Embedding of `serde_json::from_str::<User>`: parses the whole input as
one JSON value (trailing whitespace allowed) and deserializes a `User` from
it. -/
def decodeUser (s : Str) : Except Unit User :=
  match parseValue (2 * s.length + 8) s with
  | .ok (j, rest) => if skipWsJ rest = [] then fromJsonUser j else .error ()
  | .error e => .error e

/-- Embedding of `get_user_request_body` (src/backend/src/main.rs:196):
`serde_json::from_str(request.split("\r\n\r\n").last().unwrap_or_default())`. -/
def get_user_request_body (request : Str) : Except Unit User :=
  decodeUser (bodyRaw request)

/-- Embedding of `str::parse::<i32>` as used on the extracted id: an
optional sign followed by one or more decimal digits, the value fitting in
`i32`; anything else is an error. -/
def parseI32 (s : Str) : Except Unit Int :=
  let neg : Bool := match s with
    | '-' :: _ => true
    | _ => false
  let ds : Str := match s with
    | '+' :: r => r
    | '-' :: r => r
    | _ => s
  if ds = [] then .error ()
  else if ds.all Char.isDigit then
    let n : Int := Int.ofNat (digitsToNat ds)
    let v : Int := if neg then -n else n
    if inI32 v then .ok v else .error ()
  else .error ()

/-- The `OK_RESPONSE` constant of the source (src/backend/src/main.rs:42),
including the literal newlines and indentation of the Rust multi-line
string. -/
def OK_RESPONSE : Str :=
  ("HTTP/1.1 200 OK\r\n\n    Content-Type: application/json\r\n\n    Access-Control-Allow-Origin: *\r\n\n    Access-Control-Allow-Methods: GET, POST, PUT, DELETE\r\n\n    Access-Control-Allow-Headers: Content-Type\r\n\r\n").data

/-- The `NOT_FOUND` constant of the source (src/backend/src/main.rs:49). -/
def NOT_FOUND : Str :=
  "HTTP/1.1 404 NOT FOUND\r\n\r\n".data

/-- The `INTERNAL_ERROR` constant of the source (src/backend/src/main.rs:51). -/
def INTERNAL_ERROR : Str :=
  "HTTP/1.1 500 INTERNAL ERROR\r\n\r\n".data

/-- Lowercase hexadecimal digit. -/
def hexDigit (n : Nat) : Char :=
  if n < 10 then Char.ofNat (48 + n) else Char.ofNat (87 + n)

/-- serde_json's escaping of one character inside a JSON string. -/
def escJsonChar (c : Char) : Str :=
  if c = '"' then ['\\', '"']
  else if c = '\\' then ['\\', '\\']
  else if c = '\x08' then ['\\', 'b']
  else if c = '\t' then ['\\', 't']
  else if c = '\n' then ['\\', 'n']
  else if c = '\x0c' then ['\\', 'f']
  else if c = '\r' then ['\\', 'r']
  else if c.toNat < 32 then ['\\', 'u', '0', '0', hexDigit (c.toNat / 16), hexDigit (c.toNat % 16)]
  else [c]

/-- serde_json's escaping of a whole string body. -/
def escJson (s : Str) : Str :=
  s.flatMap escJsonChar

/-- Decimal rendering of an integer. -/
def intToStr (n : Int) : Str :=
  (toString n).data

/-- Embedding of `serde_json::to_string::<User>`: fields in declaration
order, `None` id rendered as `null`. -/
def serializeUser (u : User) : Str :=
  '\x7b' :: ("\"id\":".data ++
    (match u.id with
     | some n => intToStr n
     | none => "null".data) ++
    ",\"name\":\"".data ++ escJson u.name ++
    "\",\"email\":\"".data ++ escJson u.email ++ "\"".data) ++ ['\x7d']

/-- Embedding of `handle_post_request` (src/backend/src/main.rs:213).  The
outcomes of the three database calls the source makes are explicit
parameters: `connect` for `Client::connect`, `insert` for the
`query_one(INSERT ... RETURNING id)` call (yielding the generated id), and
`reselect` for the `query_one(SELECT ... WHERE id = $1)` re-read.  The
source unwraps the insert, so an insert failure is a panic, modelled as
`none`; every other path returns `some` response. -/
def handle_post_request (request : Str) (connect : Except Unit Unit)
    (insert : Except Unit Int) (reselect : Int → Except Unit DBUser) :
    Option (Str × Str) :=
  match get_user_request_body request, connect with
  | .ok _user, .ok _ =>
    match insert with
    | .error _ => none
    | .ok user_id =>
      match reselect user_id with
      | .ok row => some (OK_RESPONSE, serializeUser ⟨some row.id, row.name, row.email⟩)
      | .error _ => some (INTERNAL_ERROR, "Failed to retrieve created user".data)
  | _, _ => some (INTERNAL_ERROR, "Internal error".data)

/-- `client.query_one("SELECT * FROM users WHERE id = $1")` against the
modelled table: ok exactly when exactly one row has the id. -/
def queryOneById (db : List DBUser) (i : Int) : Except Unit DBUser :=
  match db.filter (fun u => u.id == i) with
  | [row] => .ok row
  | _ => .error ()

/-- Embedding of `handle_get_request` (src/backend/src/main.rs:239): the
table is modelled in memory, `connect` is the outcome of `Client::connect`. -/
def handle_get_request (request : Str) (connect : Except Unit Unit)
    (db : List DBUser) : Str × Str :=
  match parseI32 (get_id request), connect with
  | .ok i, .ok _ =>
    match queryOneById db i with
    | .ok row => (OK_RESPONSE, serializeUser ⟨some row.id, row.name, row.email⟩)
    | .error _ => (NOT_FOUND, "User not found".data)
  | _, _ => (INTERNAL_ERROR, "Internal error".data)

/-- Number of rows of the modelled table with the given id (the
affected-row count of `DELETE FROM users WHERE id = $1`). -/
def countId (db : List DBUser) (i : Int) : Nat :=
  (db.filter (fun u => u.id == i)).length

/-- The modelled table after `DELETE FROM users WHERE id = $1`. -/
def removeId (db : List DBUser) (i : Int) : List DBUser :=
  db.filter (fun u => !(u.id == i))

/-- The modelled table after
`UPDATE users SET name = $1, email = $2 WHERE id = $3`. -/
def updateRows (db : List DBUser) (i : Int) (u : User) : List DBUser :=
  db.map (fun row => if row.id == i then ⟨row.id, u.name, u.email⟩ else row)

/-- Embedding of `handle_put_request` (src/backend/src/main.rs:280).
`connect` is the outcome of `Client::connect`; `exec` is the
success/failure of the `execute(UPDATE ...)` network call, whose affected
state is computed from the modelled table.  The source unwraps the execute,
so its failure is a panic, modelled as `none`. -/
def handle_put_request (request : Str) (connect : Except Unit Unit)
    (exec : Except Unit Unit) (db : List DBUser) :
    Option ((Str × Str) × List DBUser) :=
  match parseI32 (get_id request), get_user_request_body request, connect with
  | .ok i, .ok user, .ok _ =>
    match exec with
    | .error _ => none
    | .ok _ => some ((OK_RESPONSE, "User updated".data), updateRows db i user)
  | _, _, _ => some ((INTERNAL_ERROR, "Internal error".data), db)

/-- Embedding of `handle_delete_request` (src/backend/src/main.rs:303).
`connect` is the outcome of `Client::connect`; `exec` is the
success/failure of the `execute(DELETE ...)` network call (unwrapped by the
source, so its failure is a panic, modelled as `none`); on success the
affected-row count and the new state come from the modelled table. -/
def handle_delete_request (request : Str) (connect : Except Unit Unit)
    (exec : Except Unit Unit) (db : List DBUser) :
    Option ((Str × Str) × List DBUser) :=
  match parseI32 (get_id request), connect with
  | .ok i, .ok _ =>
    match exec with
    | .error _ => none
    | .ok _ =>
      if countId db i = 0 then some ((NOT_FOUND, "User not found".data), removeId db i)
      else some ((OK_RESPONSE, "User deleted".data), removeId db i)
  | _, _ => some ((INTERNAL_ERROR, "Internal error".data), db)

/-- Repeated delete of the same request against the evolving table state:
`delIter r db n` is the outcome of the `n+1`-st attempt, each attempt
running on the state left by the previous one. -/
def delIter (r : Str) (db : List DBUser) : Nat → Option ((Str × Str) × List DBUser)
  | 0 => handle_delete_request r (.ok ()) (.ok ()) db
  | n+1 =>
    match delIter r db n with
    | some p => handle_delete_request r (.ok ()) (.ok ()) p.2
    | none => none

/-- A prefix test fails on an extension of `l₂` whenever the two concrete
patterns are prefix-incomparable. -/
theorem isPrefixOf_append_false {l₁ l₂ : Str} (r : Str)
    (h₁ : l₁.isPrefixOf l₂ = false) (h₂ : l₂.isPrefixOf l₁ = false) :
    l₁.isPrefixOf (l₂ ++ r) = false := by
  rw [Bool.eq_false_iff]
  intro hc
  have hp : l₁ <+: l₂ ++ r := List.isPrefixOf_iff_prefix.mp hc
  have hq : l₂ <+: l₂ ++ r := List.prefix_append l₂ r
  rcases List.prefix_or_prefix_of_prefix hp hq with h | h
  · rw [← List.isPrefixOf_iff_prefix] at h
    simp [h₁] at h
  · rw [← List.isPrefixOf_iff_prefix] at h
    simp [h₂] at h

/-- A pattern is a prefix of any of its extensions. -/
theorem isPrefixOf_append_self (l r : Str) : l.isPrefixOf (l ++ r) = true :=
  List.isPrefixOf_iff_prefix.mpr (List.prefix_append l r)

/-- C1: every request string that starts with `GET /api/rust/users/` followed
by a non-empty trailing segment dispatches to the get-one arm, not the
get-all arm: the more specific prefix is tested first in `handle_client`. -/
theorem routes_getOne_before_getAll (seg : Str) (_h : seg ≠ []) :
    route ("GET /api/rust/users/".data ++ seg) = Route.getOne ∧
      Route.getOne ≠ Route.getAll := by
  refine ⟨?_, by decide⟩
  have h1 : "OPTIONS".data.isPrefixOf ("GET /api/rust/users/".data ++ seg) = false :=
    isPrefixOf_append_false seg (by decide) (by decide)
  have h2 : "POST /api/rust/users".data.isPrefixOf ("GET /api/rust/users/".data ++ seg) = false :=
    isPrefixOf_append_false seg (by decide) (by decide)
  have h3 : "GET /api/rust/users/".data.isPrefixOf ("GET /api/rust/users/".data ++ seg) = true :=
    isPrefixOf_append_self _ seg
  simp [route, h1, h2, h3]

/-- Witness for C1 at the concrete trailing segment `42`. -/
theorem routes_getOne_before_getAll_witness :
    route ("GET /api/rust/users/".data ++ "42".data) = Route.getOne ∧
      Route.getOne ≠ Route.getAll :=
  routes_getOne_before_getAll "42".data (by decide)

/-- C4 counterexample: `POST /api/rust/users/7 HTTP/1.1` has a trailing id
segment, yet it dispatches to the create arm, because the source tests
`starts_with("POST /api/rust/users")` as a prefix, not an exact path. -/
theorem post_with_trailing_segment_creates :
    route "POST /api/rust/users/7 HTTP/1.1".data = Route.create := by decide

/-- C4 amended: every request string starting with `POST /api/rust/users` —
with or without a trailing id segment — dispatches to the create arm. -/
theorem post_prefix_routes_create (rest : Str) :
    route ("POST /api/rust/users".data ++ rest) = Route.create := by
  have h1 : "OPTIONS".data.isPrefixOf ("POST /api/rust/users".data ++ rest) = false :=
    isPrefixOf_append_false rest (by decide) (by decide)
  have h2 : "POST /api/rust/users".data.isPrefixOf ("POST /api/rust/users".data ++ rest) = true :=
    isPrefixOf_append_self _ rest
  simp [route, h1, h2]


theorem splitCrlf2_ne_nil (s : Str) : splitCrlf2 s ≠ [] := by
  induction s using splitCrlf2.induct <;> simp_all [splitCrlf2]

theorem afterLast_none_split (s : Str) (h : afterLastBlankOpt s = none) :
    splitCrlf2 s = [s] := by
  induction s using splitCrlf2.induct <;> simp_all [splitCrlf2, afterLastBlankOpt]

theorem afterLast_some_split (s : Str) (b : Str) (h : afterLastBlankOpt s = some b) :
    2 ≤ (splitCrlf2 s).length := by
  induction s using splitCrlf2.induct <;> simp_all [splitCrlf2, afterLastBlankOpt]
  · have := splitCrlf2_ne_nil ‹_›
    cases hs : splitCrlf2 ‹Str› <;> simp_all

theorem splitCrlf2_getLast (s : Str) :
    (splitCrlf2 s).getLast? = some ((afterLastBlankOpt s).getD s) := by
  induction s using splitCrlf2.induct with
  | case1 rest ih =>
    rw [splitCrlf2]
    rcases hs : splitCrlf2 rest with _ | ⟨t, ts⟩
    · exact absurd hs (splitCrlf2_ne_nil rest)
    · rw [afterLastBlankOpt]
      rw [hs] at ih
      simp at ih ⊢
      rw [← ih]
  | case2 c rest hne hnil => exact absurd hnil (splitCrlf2_ne_nil rest)
  | case3 c rest hne t ts hs ih =>
    have heq : splitCrlf2 (c :: rest) = (c :: t) :: ts := by
      simp_all [splitCrlf2]
    have hafter : afterLastBlankOpt (c :: rest) = afterLastBlankOpt rest := by
      simp_all [afterLastBlankOpt]
    rw [heq, hafter]
    rw [hs] at ih
    rcases ts with _ | ⟨x, xs⟩
    · rcases hal : afterLastBlankOpt rest with _ | b
      · have h2 := afterLast_none_split rest hal
        rw [hs] at h2
        simp_all
      · have h2 := afterLast_some_split rest b hal
        rw [hs] at h2
        simp at h2
    · rcases hal : afterLastBlankOpt rest with _ | b
      · have h2 := afterLast_none_split rest hal
        rw [hs] at h2
        simp at h2
      · simp_all
  | case4 => simp [splitCrlf2, afterLastBlankOpt]

/-- C3 counterexample: for a buffer whose body itself contains a `CRLF CRLF`
sequence, the raw body handed to the decoder is not the portion after the
first blank line — the source takes `.last()` of the split, i.e. the portion
after the last blank line. -/
theorem body_not_after_first_blank :
    afterFirstBlankOpt "P\r\n\r\nA\r\n\r\nB".data = some "A\r\n\r\nB".data ∧
      bodyRaw "P\r\n\r\nA\r\n\r\nB".data ≠ "A\r\n\r\nB".data := by
  constructor
  · decide
  · decide

/-- C3 amended: the raw body handed to the body decoder is the portion of
the buffer following the last `CRLF CRLF` occurrence (the whole buffer when
none occurs); this coincides with the portion after the first blank line
exactly when the body contains no further `CRLF CRLF`. -/
theorem bodyRaw_after_last_blank (r : Str) :
    bodyRaw r = (afterLastBlankOpt r).getD r := by
  unfold bodyRaw
  rw [splitCrlf2_getLast]
  rfl

theorem splitWsAux_head (s : Str) :
    ∀ acc : Str, acc ≠ [] →
      (splitWsAux s acc).head?.getD [] = acc.reverse ++ s.takeWhile (fun d => !rustWs d) := by
  induction s with
  | nil =>
    intro acc hacc
    rcases acc with _ | ⟨a, as⟩
    · simp at hacc
    · simp [splitWsAux]
  | cons c rest ih =>
    intro acc hacc
    rcases acc with _ | ⟨a, as⟩
    · simp at hacc
    · by_cases hw : rustWs c
      · simp [splitWsAux, hw]
      · rw [splitWsAux, if_neg (by simp [hw])]
        rw [ih (c :: a :: as) (by simp)]
        simp [hw]

theorem splitWs_head (s : Str) :
    (splitWs s).head?.getD [] = ((s.dropWhile rustWs).takeWhile (fun d => !rustWs d)) := by
  unfold splitWs
  induction s with
  | nil => simp [splitWsAux]
  | cons c rest ih =>
    by_cases hw : rustWs c
    · rw [splitWsAux]
      simp [hw, ih]
    · rw [splitWsAux, if_neg (by simp [hw])]
      rw [splitWsAux_head rest [c] (by simp)]
      simp [hw]

/-- C9 counterexample: for the request `GET /api/rust/users/ 5`, whose fifth
`/`-separated segment begins with a space, `get_id` skips the leading
whitespace and returns `5`, while truncating the segment at its first
whitespace would return the empty string. -/
theorem get_id_not_truncate_at_first_ws :
    get_id "GET /api/rust/users/ 5".data ≠ specIdC9 "GET /api/rust/users/ 5".data := by
  decide

/-- C9 amended: `get_id` returns the first whitespace-delimited token of the
fifth `/`-separated segment — leading whitespace is skipped, then the token
is truncated at the next whitespace — and the empty string when the request
has fewer than five `/`-separated segments. -/
theorem get_id_first_token (r : Str) :
    get_id r = truncAtFirstWs (((splitSlash r)[4]?.getD []).dropWhile rustWs) ∧
      ((splitSlash r).length < 5 → get_id r = []) := by
  constructor
  · unfold get_id truncAtFirstWs
    rw [splitWs_head]
  · intro hlen
    unfold get_id
    rw [List.getElem?_eq_none (by omega)]
    decide

/-- Witness for C9 amended at a request with fewer than five segments. -/
theorem get_id_first_token_witness : get_id "GET /x".data = [] :=
  (get_id_first_token "GET /x".data).2 (by decide)

/-- C10: `get_id` is total — each of the two lookups that could be absent
(the fifth `/`-separated segment, and the first whitespace-delimited token
of it) falls back to the empty string instead of failing. -/
theorem get_id_total_fallbacks (r : Str) :
    ((splitSlash r)[4]? = none → get_id r = []) ∧
      (∀ s4 : Str, (splitSlash r)[4]? = some s4 → (splitWs s4).head? = none →
        get_id r = []) := by
  constructor
  · intro h
    unfold get_id
    rw [h]
    decide
  · intro s4 h4 hh
    unfold get_id
    rw [h4]
    simp [hh]

/-- Witness for C10: the empty request (no `/` at all) and a request whose
fifth segment is all whitespace both yield the empty id. -/
theorem get_id_total_fallbacks_witness :
    get_id [] = [] ∧ get_id "a/b/c/d/ ".data = [] :=
  ⟨(get_id_total_fallbacks []).1 (by decide),
   (get_id_total_fallbacks "a/b/c/d/ ".data).2 " ".data (by decide) (by decide)⟩


/-- C8 counterexample: a request body that includes an `"id"` field produces
a `User` whose id is set — serde's derived `Deserialize` for
`id: Option<i32>` parses a present integer field as `Some`, it does not
ignore it. -/
theorem body_id_field_sets_id :
    get_user_request_body
        "POST /api/rust/users HTTP/1.1\r\n\r\n\x7b\"id\":7,\"name\":\"a\",\"email\":\"b\"\x7d".data =
      .ok ⟨some 7, "a".data, "b".data⟩ := by
  decide

/-- C8 amended: the decoded `User` has its id set to the body's integer
`id` field when one is present; the id is `none` exactly when the body
omits the `id` field or sets it to `null`. -/
theorem decoded_id_follows_body (n : Int) (nm em : Str) (h : inI32 n = true) :
    fromJsonUser (.obj [(['i', 'd'], .num n), (['n', 'a', 'm', 'e'], .str nm),
        (['e', 'm', 'a', 'i', 'l'], .str em)]) = .ok ⟨some n, nm, em⟩ ∧
    fromJsonUser (.obj [(['n', 'a', 'm', 'e'], .str nm),
        (['e', 'm', 'a', 'i', 'l'], .str em)]) = .ok ⟨none, nm, em⟩ ∧
    fromJsonUser (.obj [(['i', 'd'], .null), (['n', 'a', 'm', 'e'], .str nm),
        (['e', 'm', 'a', 'i', 'l'], .str em)]) = .ok ⟨none, nm, em⟩ := by
  refine ⟨?_, rfl, rfl⟩
  simp [fromJsonUser, goUser, setIdField, setStrField, h]

/-- Witness for C8 amended at the concrete id 7. -/
theorem decoded_id_follows_body_witness :
    fromJsonUser (.obj [(['i', 'd'], .num 7), (['n', 'a', 'm', 'e'], .str "a".data),
        (['e', 'm', 'a', 'i', 'l'], .str "b".data)]) = .ok ⟨some 7, "a".data, "b".data⟩ :=
  (decoded_id_follows_body 7 "a".data "b".data (by decide)).1

/-- C2 counterexample: with a decodable body and a successful connection, a
failing insert makes `handle_post_request` panic (the source unwraps the
insert) instead of returning an `INTERNAL_ERROR` response. -/
theorem post_insert_failure_panics :
    handle_post_request
        "POST /api/rust/users HTTP/1.1\r\n\r\n\x7b\"name\":\"a\",\"email\":\"b\"\x7d".data
        (.ok ()) (.error ()) (fun _ => .ok ⟨1, "a".data, "b".data⟩) = none := by
  decide

/-- C2 amended: a body-decode failure or a connection failure yields
`INTERNAL_ERROR` "Internal error"; a failure of the re-read of the inserted
row yields `INTERNAL_ERROR` "Failed to retrieve created user"; but a
failure of the insert itself panics instead of returning a response. -/
theorem post_error_paths (r : Str) (c : Except Unit Unit) (ins : Except Unit Int)
    (sel : Int → Except Unit DBUser) :
    ((get_user_request_body r = .error () ∨ c = .error ()) →
      handle_post_request r c ins sel = some (INTERNAL_ERROR, "Internal error".data)) ∧
    (∀ (u : User) (n : Int), get_user_request_body r = .ok u → ins = .ok n →
      sel n = .error () →
      handle_post_request r (.ok ()) ins sel =
        some (INTERNAL_ERROR, "Failed to retrieve created user".data)) ∧
    (∀ u : User, get_user_request_body r = .ok u → ins = .error () →
      handle_post_request r (.ok ()) ins sel = none) := by
  refine ⟨?_, ?_, ?_⟩
  · intro h
    rcases h with h | h
    · rcases c with _ | _ <;> simp [handle_post_request, h]
    · rcases hb : get_user_request_body r with _ | u <;>
        simp [handle_post_request, h, hb]
  · intro u n hb hins hsel
    simp [handle_post_request, hb, hins, hsel]
  · intro u hb hins
    simp [handle_post_request, hb, hins]

/-- Witness for C2 amended: the three paths at concrete inputs — an empty
body, a failing re-read, and a failing insert. -/
theorem post_error_paths_witness :
    handle_post_request "POST /api/rust/users HTTP/1.1\r\n\r\n".data (.ok ()) (.ok 1)
        (fun _ => .ok ⟨1, "a".data, "b".data⟩) =
      some (INTERNAL_ERROR, "Internal error".data) ∧
    handle_post_request
        "POST /api/rust/users HTTP/1.1\r\n\r\n\x7b\"name\":\"a\",\"email\":\"b\"\x7d".data
        (.ok ()) (.ok 1) (fun _ => .error ()) =
      some (INTERNAL_ERROR, "Failed to retrieve created user".data) ∧
    handle_post_request
        "POST /api/rust/users HTTP/1.1\r\n\r\n\x7b\"name\":\"a\",\"email\":\"b\"\x7d".data
        (.ok ()) (.error ()) (fun _ => .ok ⟨1, "a".data, "b".data⟩) = none :=
  ⟨(post_error_paths _ (.ok ()) (.ok 1) _).1 (Or.inl (by decide)),
   (post_error_paths _ (.ok ()) (.ok 1) _).2.1 ⟨none, "a".data, "b".data⟩ 1 (by decide) rfl rfl,
   (post_error_paths _ (.ok ()) (.error ()) _).2.2 ⟨none, "a".data, "b".data⟩ (by decide) rfl⟩

/-- C5: with a parsed id and a successful connection, an id matching no row
yields `NOT_FOUND` and the status is never `INTERNAL_ERROR`; a non-parsing
id or a failed connection yields `INTERNAL_ERROR`. -/
theorem get_one_not_found_vs_internal (r : Str) (db : List DBUser) (i : Int) :
    (parseI32 (get_id r) = .ok i → db.filter (fun u => u.id == i) = [] →
      handle_get_request r (.ok ()) db = (NOT_FOUND, "User not found".data)) ∧
    (parseI32 (get_id r) = .ok i →
      (handle_get_request r (.ok ()) db).1 ≠ INTERNAL_ERROR) ∧
    (parseI32 (get_id r) = .error () → ∀ c : Except Unit Unit,
      handle_get_request r c db = (INTERNAL_ERROR, "Internal error".data)) ∧
    handle_get_request r (.error ()) db = (INTERNAL_ERROR, "Internal error".data) := by
  refine ⟨?_, ?_, ?_, ?_⟩
  · intro hid hempty
    simp [handle_get_request, hid, queryOneById, hempty]
  · intro hid
    rcases hq : queryOneById db i with _ | row <;>
      simp [handle_get_request, hid, hq] <;> decide
  · intro hid c
    rcases c with _ | _ <;> simp [handle_get_request, hid]
  · rcases hp : parseI32 (get_id r) with _ | j <;> simp [handle_get_request, hp]

/-- Witness for C5: a missing row on an empty table, a non-numeric id, and
a failed connection, at concrete requests. -/
theorem get_one_not_found_vs_internal_witness :
    handle_get_request "GET /api/rust/users/5 HTTP/1.1".data (.ok ()) [] =
      (NOT_FOUND, "User not found".data) ∧
    (handle_get_request "GET /api/rust/users/5 HTTP/1.1".data (.ok ()) []).1 ≠ INTERNAL_ERROR ∧
    handle_get_request "GET /api/rust/users/x HTTP/1.1".data (.ok ()) [] =
      (INTERNAL_ERROR, "Internal error".data) ∧
    handle_get_request "GET /api/rust/users/5 HTTP/1.1".data (.error ()) [] =
      (INTERNAL_ERROR, "Internal error".data) :=
  ⟨(get_one_not_found_vs_internal _ [] 5).1 (by decide) rfl,
   (get_one_not_found_vs_internal _ [] 5).2.1 (by decide),
   (get_one_not_found_vs_internal _ [] 0).2.2.1 (by decide) (.ok ()),
   (get_one_not_found_vs_internal _ [] 5).2.2.2⟩

theorem countId_removeId (db : List DBUser) (i : Int) :
    countId (removeId db i) i = 0 := by
  simp [countId, removeId, List.filter_filter]

theorem removeId_idem (db : List DBUser) (i : Int) :
    removeId (removeId db i) i = removeId db i := by
  simp [removeId, List.filter_filter]

theorem handle_delete_eval (r : Str) (db : List DBUser) (i : Int)
    (hid : parseI32 (get_id r) = .ok i) :
    handle_delete_request r (.ok ()) (.ok ()) db =
      if countId db i = 0 then some ((NOT_FOUND, "User not found".data), removeId db i)
      else some ((OK_RESPONSE, "User deleted".data), removeId db i) := by
  simp [handle_delete_request, hid]

theorem delIter_state (r : Str) (db : List DBUser) (i : Int)
    (hid : parseI32 (get_id r) = .ok i) :
    ∀ n : Nat, (delIter r db n).map Prod.snd = some (removeId db i) := by
  intro n
  induction n with
  | zero =>
    rw [delIter, handle_delete_eval r db i hid]
    split <;> rfl
  | succ n ih =>
    rcases hd : delIter r db n with _ | p
    · rw [hd] at ih
      simp at ih
    · rw [hd] at ih
      simp at ih
      rw [delIter, hd]
      simp
      rw [ih, handle_delete_eval r (removeId db i) i hid]
      split <;> simp [removeId_idem]

/-- C6: with a parsed id and successful database calls, a delete that
affects zero rows yields `NOT_FOUND`/"User not found" and otherwise
`OK`/"User deleted"; after the first attempt the row is gone, so the second
and every further attempt on the resulting state yields `NOT_FOUND`. -/
theorem delete_idempotent_not_found (r : Str) (db : List DBUser) (i : Int)
    (hid : parseI32 (get_id r) = .ok i) :
    (countId db i = 0 →
      (handle_delete_request r (.ok ()) (.ok ()) db).map Prod.fst =
        some (NOT_FOUND, "User not found".data)) ∧
    (countId db i ≠ 0 →
      (handle_delete_request r (.ok ()) (.ok ()) db).map Prod.fst =
        some (OK_RESPONSE, "User deleted".data)) ∧
    (∀ n : Nat, (delIter r db (n + 1)).map Prod.fst =
      some (NOT_FOUND, "User not found".data)) := by
  refine ⟨?_, ?_, ?_⟩
  · intro h
    rw [handle_delete_eval r db i hid, if_pos h]
    rfl
  · intro h
    rw [handle_delete_eval r db i hid, if_neg h]
    rfl
  · intro n
    have hst := delIter_state r db i hid n
    rcases hd : delIter r db n with _ | p
    · rw [hd] at hst
      simp at hst
    · rw [hd] at hst
      simp at hst
      rw [delIter, hd]
      show (handle_delete_request r (.ok ()) (.ok ()) p.2).map Prod.fst =
        some (NOT_FOUND, "User not found".data)
      rw [hst, handle_delete_eval r (removeId db i) i hid,
        if_pos (countId_removeId db i)]
      rfl

/-- Witness for C6 at id 1: deleting an existing row succeeds, the second
attempt yields `NOT_FOUND`, and deleting from an empty table yields
`NOT_FOUND`. -/
theorem delete_idempotent_not_found_witness :
    (handle_delete_request "DELETE /api/rust/users/1 HTTP/1.1".data (.ok ()) (.ok ())
        [⟨1, "a".data, "b".data⟩]).map Prod.fst =
      some (OK_RESPONSE, "User deleted".data) ∧
    (delIter "DELETE /api/rust/users/1 HTTP/1.1".data [⟨1, "a".data, "b".data⟩] 1).map Prod.fst =
      some (NOT_FOUND, "User not found".data) ∧
    (handle_delete_request "DELETE /api/rust/users/1 HTTP/1.1".data (.ok ()) (.ok ())
        []).map Prod.fst =
      some (NOT_FOUND, "User not found".data) :=
  ⟨(delete_idempotent_not_found _ [⟨1, "a".data, "b".data⟩] 1 (by decide)).2.1 (by decide),
   (delete_idempotent_not_found _ [⟨1, "a".data, "b".data⟩] 1 (by decide)).2.2 0,
   (delete_idempotent_not_found _ [] 1 (by decide)).1 (by decide)⟩

/-- C7: with a parsed id, a decoded body and successful database calls, the
update returns `OK`/"User updated" for every table state — whether or not
any row has the id — and no outcome of `handle_put_request` ever carries
the `NOT_FOUND` status. -/
theorem update_ok_ignores_row_match (r : Str) (db : List DBUser) (i : Int) (u : User)
    (hid : parseI32 (get_id r) = .ok i) (hb : get_user_request_body r = .ok u) :
    (handle_put_request r (.ok ()) (.ok ()) db).map Prod.fst =
      some (OK_RESPONSE, "User updated".data) ∧
    (∀ (c e : Except Unit Unit) (db2 : List DBUser) (res : (Str × Str) × List DBUser),
      handle_put_request r c e db2 = some res → res.1.1 ≠ NOT_FOUND) := by
  constructor
  · simp [handle_put_request, hid, hb]
  · intro c e db2 res hres
    rcases hp : parseI32 (get_id r) with _ | j <;>
      rcases hbb : get_user_request_body r with _ | v <;>
      rcases c with _ | _ <;>
      rcases e with _ | _ <;>
      simp [handle_put_request, hp, hbb] at hres <;>
      (try subst hres) <;>
      first
        | exact (show INTERNAL_ERROR ≠ NOT_FOUND from by decide)
        | exact (show OK_RESPONSE ≠ NOT_FOUND from by decide)

/-- Witness for C7 at id 3 and an empty table: updating the nonexistent id
still returns `OK`/"User updated". -/
theorem update_ok_ignores_row_match_witness :
    (handle_put_request
        "PUT /api/rust/users/3 HTTP/1.1\r\n\r\n\x7b\"name\":\"x\",\"email\":\"y\"\x7d".data
        (.ok ()) (.ok ()) []).map Prod.fst =
      some (OK_RESPONSE, "User updated".data) :=
  (update_ok_ignores_row_match _ [] 3 ⟨none, "x".data, "y".data⟩
    (by decide) (by decide)).1
